import Mathlib

/-!
Shallow embedding of the artifact panel logic of
`src/components/artifact/artifact.tsx` (Papr-ai/papr-chat).

The component state that the claims are about consists of
* the shared `UIArtifact` view model (title, documentId, content, status, …),
* the fetched `documents` SWR cache (`undefined` before a fetch, modelled as
  `Option (List Document)`),
* the local display `mode` (`edit`/`diff`) and the integer version cursor
  `currentVersionIndex` (initialised to `-1` in the source).

JavaScript peculiarities are modelled explicitly: the version cursor is an
`Int` (it starts at `-1`), array indexing with an out-of-range index yields
`undefined` (`Option`), `x?.content` followed by an `if` is a truthiness test
(`null` and `""` are falsy), `x.content || ''` and `x.content ?? ''` are the
usual JS operators.
-/

/-- `UIArtifact.status` in the source: `'streaming' | 'idle'`. -/
inductive ArtifactStatus
  | streaming
  | idle
deriving DecidableEq, Repr

/-- `UseChatHelpers['status']` of the owning chat:
`'submitted' | 'streaming' | 'ready' | 'error'`. -/
inductive ChatStatus
  | submitted
  | streaming
  | ready
  | error
deriving DecidableEq, Repr

/-- The local display mode `useState<'edit' | 'diff'>('edit')`. -/
inductive DisplayMode
  | edit
  | diff
deriving DecidableEq, Repr

/-- The artifact kinds of `artifactDefinitions`. -/
inductive ArtifactKind
  | text
  | image
  | sheet
  | memory
deriving DecidableEq, Repr

/-- A persisted document snapshot (the fields of `@/lib/db/schema`'s
`Document` that the artifact component reads; `content` is `string | null`). -/
structure Document where
  id : String
  title : String
  kind : ArtifactKind
  content : Option String
  createdAt : String
deriving DecidableEq, Repr

/-- The `boundingBox` record of `UIArtifact`. -/
structure BoundingBox where
  top : Int
  left : Int
  width : Int
  height : Int
deriving DecidableEq, Repr

/-- The `UIArtifact` interface of `artifact.tsx` (`content: string | null`). -/
structure UIArtifact where
  title : String
  documentId : String
  kind : ArtifactKind
  content : Option String
  isVisible : Bool
  status : ArtifactStatus
  boundingBox : BoundingBox
  language : Option String
deriving DecidableEq, Repr

/-- JS truthiness of a `string | null` value: `null` and `""` are falsy,
every other string is truthy.  Used for guards like `if (latestDoc?.content)`. -/
def strTruthy : Option String → Bool
  | none => false
  | some s => s != ""

/-- JS `x || ''` for `x : string | null`: `null` and `""` give `""`. -/
def jsOrEmpty : Option String → String
  | none => ""
  | some s => if s == "" then "" else s

/-- JS array indexing `docs[i]` with a possibly negative integer index:
`undefined` (here `none`) whenever `i` is out of `[0, length)`. -/
def jsIndex (docs : List Document) (i : Int) : Option Document :=
  if 0 ≤ i then docs[i.toNat]? else none

/-- The combined component state that `handleVersionChange` reads and writes:
the shared artifact view model, the fetched document list (`none` while the
SWR fetch has not delivered), the display mode and the version cursor. -/
structure ArtifactPanelState where
  artifact : UIArtifact
  documents : Option (List Document)
  mode : DisplayMode
  currentVersionIndex : Int
deriving DecidableEq, Repr

/-- The four navigation commands of `handleVersionChange`. -/
inductive VersionChangeType
  | next
  | prev
  | toggle
  | latest
deriving DecidableEq, Repr

/-- `handleVersionChange` of `artifact.tsx` (lines 266–381), as a pure state
transformer.  The early return `if (!documents) return;` is the `none` case;
console logging has no state effect; the `try`/`catch` cannot fire because the
body is total. -/
def handleVersionChange (type : VersionChangeType) (s : ArtifactPanelState) :
    ArtifactPanelState :=
  match s.documents with
  | none => s
  | some documents =>
    match type with
    | .latest =>
      if documents.length = 0 then s
      else
        let latestIndex : Int := (documents.length : Int) - 1
        let s1 := { s with currentVersionIndex := latestIndex, mode := .edit }
        match jsIndex documents latestIndex with
        | some latestDoc =>
          if strTruthy latestDoc.content then
            { s1 with artifact := { s1.artifact with
                content := some (jsOrEmpty latestDoc.content),
                status := .idle } }
          else s1
        | none => s1
    | .toggle =>
      { s with mode := if s.mode = .edit then .diff else .edit }
    | .prev =>
      if s.currentVersionIndex > 0 then
        let newIndex := s.currentVersionIndex - 1
        let s1 := { s with currentVersionIndex := newIndex }
        match jsIndex documents newIndex with
        | some selectedDoc =>
          if strTruthy selectedDoc.content then
            { s1 with artifact := { s1.artifact with
                content := some (jsOrEmpty selectedDoc.content),
                status := .idle } }
          else s1
        | none => s1
      else s
    | .next =>
      if s.currentVersionIndex < (documents.length : Int) - 1 then
        let newIndex := s.currentVersionIndex + 1
        let s1 := { s with currentVersionIndex := newIndex }
        match jsIndex documents newIndex with
        | some selectedDoc =>
          if strTruthy selectedDoc.content then
            { s1 with artifact := { s1.artifact with
                content := some (jsOrEmpty selectedDoc.content),
                status := .idle } }
          else s1
        | none => s1
      else s

/-- Folding a sequence of navigation commands through `handleVersionChange`. -/
def applyVersionChanges (cmds : List VersionChangeType)
    (s : ArtifactPanelState) : ArtifactPanelState :=
  cmds.foldl (fun st t => handleVersionChange t st) s

/-- `getDocumentContentById` of `artifact.tsx` (lines 260–264):
`''` when `documents` is `undefined`, `''` when `documents[index]` is
`undefined`, else `documents[index].content ?? ''`. -/
def getDocumentContentById (documents : Option (List Document)) (index : Int) :
    String :=
  match documents with
  | none => ""
  | some docs =>
    match jsIndex docs index with
    | none => ""
    | some d => d.content.getD ""

/-- The network collaborator seen by one run of the `mutate` updater of
`handleContentChange`: the `ok` flag of the `POST /api/document` response, the
`ok` flag of the follow-up `GET`, and the document list that `GET` returns. -/
structure Net where
  postOk : Bool
  refetchOk : Bool
  refetchDocs : List Document
deriving DecidableEq, Repr

/-- The observable outcome of one run of the async `mutate` updater of
`handleContentChange`: the value it returns to the SWR cache (`none` models
returning `undefined`), how many `POST` update requests it issued, and whether
it ran `setIsContentDirty(false)`. -/
structure MutateOutcome where
  result : Option (List Document)
  posts : Nat
  dirtyCleared : Bool
deriving DecidableEq, Repr

/-- The async updater passed to `mutate` inside `handleContentChange`
(lines 181–235).  `currentDocuments.at(-1)` is `List.getLast?`; the strict
comparison `currentDocument.content !== updatedContent` between a
`string | null` and a `string` is `content != some updatedContent`. -/
def documentMutateUpdater (updatedContent : String) (net : Net)
    (currentDocuments : Option (List Document)) : MutateOutcome :=
  match currentDocuments with
  | none => { result := none, posts := 0, dirtyCleared := false }
  | some docs =>
    match docs.getLast? with
    | none => { result := some docs, posts := 0, dirtyCleared := true }
    | some currentDocument =>
      if currentDocument.content != some updatedContent then
        if !net.postOk then
          { result := some docs, posts := 1, dirtyCleared := false }
        else if net.refetchOk then
          { result := some net.refetchDocs, posts := 1, dirtyCleared := true }
        else
          { result := some docs, posts := 1, dirtyCleared := true }
      else
        { result := some docs, posts := 0, dirtyCleared := false }

/-- `handleContentChange` of `artifact.tsx` (lines 168–238).  The guard
`if (!artifact || !artifact.documentId || artifact.documentId === 'init')`
returns without calling `mutate` (`!artifact` cannot fire for a typed
`UIArtifact`; `!artifact.documentId` is the empty string); the result is
`none` when `mutate` was never invoked, `some` of the updater's outcome
otherwise. -/
def handleContentChange (artifact : UIArtifact) (updatedContent : String)
    (net : Net) (cache : Option (List Document)) : Option MutateOutcome :=
  if artifact.documentId == "" || artifact.documentId == "init" then
    none
  else
    some (documentMutateUpdater updatedContent net cache)

/-- Number of `POST` write requests an invocation of the persistence bridge
issued (zero when the guard returned before calling `mutate`). -/
def bridgePosts : Option MutateOutcome → Nat
  | none => 0
  | some o => o.posts

/-- What one call of `saveContent` (lines 245–258) dispatches: nothing when
the guard fails, otherwise a debounced or an immediate `handleContentChange`
carrying the updated content. -/
inductive SaveAction
  | skip
  | debouncedWrite (content : String)
  | immediateWrite (content : String)
deriving DecidableEq, Repr

/-- `saveContent` of `artifact.tsx`: the guard
`if (document && updatedContent !== document.content)` compares the updated
content against the `document` state (the most recent fetched snapshot);
on success it sets the dirty flag and dispatches. -/
def saveContent (document : Option Document) (updatedContent : String)
    (debounce : Bool) : SaveAction :=
  match document with
  | none => .skip
  | some doc =>
    if doc.content != some updatedContent then
      if debounce then .debouncedWrite updatedContent
      else .immediateWrite updatedContent
    else .skip

/-- The status-reconciliation `useEffect` of `PureArtifact` (lines 110–118):
when the chat's request stream is not `streaming` while the artifact still
claims `streaming`, the artifact status is forced to `idle`. -/
def reconcileArtifactStatus (status : ChatStatus) (artifact : UIArtifact) :
    UIArtifact :=
  if status != ChatStatus.streaming && artifact.status == ArtifactStatus.streaming then
    { artifact with status := .idle }
  else artifact

/-! ### Concrete sample values used by the witnesses and counterexamples -/

/-- A snapshot with content `"a"`. -/
def docA : Document :=
  { id := "doc-1", title := "T", kind := .text, content := some "a", createdAt := "t1" }

/-- A snapshot with content `"b"`. -/
def docB : Document :=
  { id := "doc-1", title := "T", kind := .text, content := some "b", createdAt := "t2" }

/-- A snapshot with content `"c"`. -/
def docC : Document :=
  { id := "doc-1", title := "T", kind := .text, content := some "c", createdAt := "t3" }

/-- A snapshot whose `content` is `null`. -/
def docNull : Document :=
  { id := "doc-1", title := "T", kind := .text, content := none, createdAt := "t4" }

/-- A snapshot whose `content` is the empty string. -/
def docEmpty : Document :=
  { id := "doc-1", title := "T", kind := .text, content := some "", createdAt := "t5" }

/-- A snapshot holding freshly saved content `"new"`. -/
def docNew : Document :=
  { id := "doc-1", title := "T", kind := .text, content := some "new", createdAt := "t6" }

/-- A visible artifact bound to document `doc-1`, still streaming. -/
def artifactEx : UIArtifact :=
  { title := "T", documentId := "doc-1", kind := .text, content := some "c",
    isVisible := true, status := .streaming,
    boundingBox := { top := 0, left := 0, width := 0, height := 0 }, language := none }

/-- The same artifact before a persistent id was assigned (sentinel `'init'`). -/
def artifactInit : UIArtifact := { artifactEx with documentId := "init" }

/-- Panel state with three fetched versions and the cursor on the last one. -/
def stateEx : ArtifactPanelState :=
  { artifact := artifactEx, documents := some [docA, docB, docC],
    mode := .edit, currentVersionIndex := 2 }

/-- Panel state before any fetch delivered (`documents` is `undefined`). -/
def stateNoDocs : ArtifactPanelState :=
  { artifact := artifactEx, documents := none, mode := .edit,
    currentVersionIndex := -1 }

/-- Panel state whose single fetched version has `null` content. -/
def stateNullLatest : ArtifactPanelState :=
  { artifact := artifactEx, documents := some [docNull], mode := .diff,
    currentVersionIndex := 0 }

/-- Panel state where `prev` targets a snapshot with `null` content. -/
def stateNullPrev : ArtifactPanelState :=
  { artifact := artifactEx, documents := some [docNull, docB], mode := .edit,
    currentVersionIndex := 1 }

/-- Panel state where `prev` targets a snapshot with empty-string content. -/
def stateEmptyPrev : ArtifactPanelState :=
  { artifact := artifactEx, documents := some [docEmpty, docB], mode := .edit,
    currentVersionIndex := 1 }

/-- A network that accepts the write and returns the refreshed list. -/
def netOk : Net :=
  { postOk := true, refetchOk := true, refetchDocs := [docA, docNew] }

/-- A network whose `POST` responds with a non-ok status. -/
def netFail : Net :=
  { postOk := false, refetchOk := true, refetchDocs := [] }

/-! ### Helper lemmas about `handleVersionChange` -/

/-- `handleVersionChange` never touches the fetched document list. -/
theorem handleVersionChange_documents (t : VersionChangeType)
    (s : ArtifactPanelState) :
    (handleVersionChange t s).documents = s.documents := by
  unfold handleVersionChange
  cases hd : s.documents with
  | none => exact hd
  | some l =>
    cases t
    all_goals dsimp only
    all_goals repeat' split
    all_goals first | rfl | exact hd

/-- JS `documents[documents.length - 1]` is the last element of the list. -/
theorem jsIndex_last (l : List Document) (hne : l ≠ []) :
    jsIndex l ((l.length : Int) - 1) = l.getLast? := by
  have hlen : 0 < l.length := List.length_pos.mpr hne
  have h0 : (0 : Int) ≤ (l.length : Int) - 1 := by omega
  have ht : ((l.length : Int) - 1).toNat = l.length - 1 := by omega
  rw [jsIndex, if_pos h0, ht, List.getLast?_eq_getElem?]

/-- `prev` with a positive cursor whose target snapshot fails the JS
truthiness test on `content` only moves the cursor. -/
theorem handleVersionChange_prev_untruthy (s : ArtifactPanelState)
    (l : List Document) (d : Document) (hd : s.documents = some l)
    (hpos : 0 < s.currentVersionIndex)
    (hj : jsIndex l (s.currentVersionIndex - 1) = some d)
    (ht : strTruthy d.content = false) :
    handleVersionChange .prev s =
      { s with currentVersionIndex := s.currentVersionIndex - 1 } := by
  unfold handleVersionChange
  rw [hd]
  dsimp only
  rw [if_pos hpos, hj]
  dsimp only
  rw [ht]
  rfl

/-- `next` with a cursor strictly below the last index whose target snapshot
fails the JS truthiness test on `content` only moves the cursor. -/
theorem handleVersionChange_next_untruthy (s : ArtifactPanelState)
    (l : List Document) (d : Document) (hd : s.documents = some l)
    (hpos : s.currentVersionIndex < (l.length : Int) - 1)
    (hj : jsIndex l (s.currentVersionIndex + 1) = some d)
    (ht : strTruthy d.content = false) :
    handleVersionChange .next s =
      { s with currentVersionIndex := s.currentVersionIndex + 1 } := by
  unfold handleVersionChange
  rw [hd]
  dsimp only
  rw [if_pos hpos, hj]
  dsimp only
  rw [ht]
  rfl

/-- `latest` on a non-empty list whose last snapshot has truthy content:
cursor to last index, mode to edit, content copied, status idle. -/
theorem handleVersionChange_latest_truthy (s : ArtifactPanelState)
    (l : List Document) (d : Document) (hd : s.documents = some l)
    (hlast : l.getLast? = some d) (ht : strTruthy d.content = true) :
    handleVersionChange .latest s =
      { s with currentVersionIndex := (l.length : Int) - 1, mode := .edit,
               artifact := { s.artifact with
                 content := some (jsOrEmpty d.content), status := .idle } } := by
  have hne : l ≠ [] := by rintro rfl; simp at hlast
  have hlen : ¬l.length = 0 := fun h => hne (List.length_eq_zero.mp h)
  unfold handleVersionChange
  rw [hd]
  dsimp only
  rw [if_neg hlen, jsIndex_last l hne, hlast]
  dsimp only
  rw [ht]
  rfl

/-- `latest` on a non-empty list whose last snapshot has non-truthy content:
cursor to last index and mode to edit, artifact untouched. -/
theorem handleVersionChange_latest_untruthy (s : ArtifactPanelState)
    (l : List Document) (d : Document) (hd : s.documents = some l)
    (hlast : l.getLast? = some d) (ht : strTruthy d.content = false) :
    handleVersionChange .latest s =
      { s with currentVersionIndex := (l.length : Int) - 1, mode := .edit } := by
  have hne : l ≠ [] := by rintro rfl; simp at hlast
  have hlen : ¬l.length = 0 := fun h => hne (List.length_eq_zero.mp h)
  unfold handleVersionChange
  rw [hd]
  dsimp only
  rw [if_neg hlen, jsIndex_last l hne, hlast]
  dsimp only
  rw [ht]
  rfl

/-- `prev` at cursor 0 is a no-op on the whole state. -/
theorem handleVersionChange_prev_atZero (s : ArtifactPanelState)
    (l : List Document) (hd : s.documents = some l)
    (hc : s.currentVersionIndex = 0) :
    handleVersionChange .prev s = s := by
  unfold handleVersionChange
  rw [hd]
  dsimp only
  rw [if_neg (by omega)]

/-- `next` at the last index is a no-op on the whole state. -/
theorem handleVersionChange_next_atLast (s : ArtifactPanelState)
    (l : List Document) (hd : s.documents = some l)
    (hc : s.currentVersionIndex = (l.length : Int) - 1) :
    handleVersionChange .next s = s := by
  unfold handleVersionChange
  rw [hd]
  dsimp only
  rw [if_neg (by omega)]

/-- One `handleVersionChange` step keeps the cursor inside `[0, length-1]`
once the fetched list is non-empty. -/
theorem handleVersionChange_cursor_bounds (t : VersionChangeType)
    (s : ArtifactPanelState) (l : List Document)
    (hd : s.documents = some l) (hne : l ≠ [])
    (h0 : 0 ≤ s.currentVersionIndex)
    (h1 : s.currentVersionIndex ≤ (l.length : Int) - 1) :
    0 ≤ (handleVersionChange t s).currentVersionIndex ∧
      (handleVersionChange t s).currentVersionIndex ≤ (l.length : Int) - 1 := by
  have hlen : 0 < l.length := List.length_pos.mpr hne
  unfold handleVersionChange
  rw [hd]
  cases t
  all_goals dsimp only
  all_goals repeat' split
  all_goals try dsimp only
  all_goals omega

/-- `applyVersionChanges` unfolding on a cons cell. -/
theorem applyVersionChanges_cons (t : VersionChangeType)
    (ts : List VersionChangeType) (s : ArtifactPanelState) :
    applyVersionChanges (t :: ts) s =
      applyVersionChanges ts (handleVersionChange t s) := rfl

/-- Any sequence of navigation commands keeps the fetched list and keeps the
cursor inside `[0, length-1]` once the list is non-empty. -/
theorem applyVersionChanges_cursor_in_range (cmds : List VersionChangeType)
    (s : ArtifactPanelState) (l : List Document)
    (hd : s.documents = some l) (hne : l ≠ [])
    (h0 : 0 ≤ s.currentVersionIndex)
    (h1 : s.currentVersionIndex ≤ (l.length : Int) - 1) :
    (applyVersionChanges cmds s).documents = some l ∧
      0 ≤ (applyVersionChanges cmds s).currentVersionIndex ∧
      (applyVersionChanges cmds s).currentVersionIndex ≤ (l.length : Int) - 1 := by
  induction cmds generalizing s with
  | nil => exact ⟨hd, h0, h1⟩
  | cons t ts ih =>
    rw [applyVersionChanges_cons]
    have hdocs : (handleVersionChange t s).documents = some l :=
      (handleVersionChange_documents t s).trans hd
    have hb := handleVersionChange_cursor_bounds t s l hd hne h0 h1
    exact ih (handleVersionChange t s) hdocs hb.1 hb.2

/-! ### Claim theorems -/

/-- **C1**: for every sequence of navigation commands (`prev`, `next`,
`toggle`, `latest`) applied via `handleVersionChange` while the fetched
document list is non-empty, the version cursor stays within
`[0, length-1]`; in particular `prev` at cursor 0 and `next` at the last
index leave the entire state unchanged. -/
theorem version_cursor_invariant (cmds : List VersionChangeType)
    (s : ArtifactPanelState) (l : List Document)
    (hd : s.documents = some l) (hne : l ≠ [])
    (h0 : 0 ≤ s.currentVersionIndex)
    (h1 : s.currentVersionIndex ≤ (l.length : Int) - 1) :
    ((applyVersionChanges cmds s).documents = some l ∧
      0 ≤ (applyVersionChanges cmds s).currentVersionIndex ∧
      (applyVersionChanges cmds s).currentVersionIndex ≤ (l.length : Int) - 1) ∧
    (s.currentVersionIndex = 0 → handleVersionChange .prev s = s) ∧
    (s.currentVersionIndex = (l.length : Int) - 1 →
      handleVersionChange .next s = s) :=
  ⟨applyVersionChanges_cursor_in_range cmds s l hd hne h0 h1,
   fun hc => handleVersionChange_prev_atZero s l hd hc,
   fun hc => handleVersionChange_next_atLast s l hd hc⟩

/-- Witness for C1 at a concrete state with three versions. -/
theorem version_cursor_invariant_witness :
    stateEx.documents = some [docA, docB, docC] ∧
      0 ≤ (applyVersionChanges [.prev, .prev, .prev, .toggle, .latest]
        stateEx).currentVersionIndex ∧
      (applyVersionChanges [.prev, .prev, .prev, .toggle, .latest]
        stateEx).currentVersionIndex ≤ (([docA, docB, docC].length : Int) - 1) ∧
      handleVersionChange .next stateEx = stateEx :=
  have h := version_cursor_invariant [.prev, .prev, .prev, .toggle, .latest]
    stateEx [docA, docB, docC] rfl (by decide) (by decide) (by decide)
  ⟨rfl, h.1.2.1, h.1.2.2, h.2.2 (by decide)⟩

/-- **C3 counterexample**: on a state whose single fetched snapshot has
`null` content and whose artifact is still streaming, `latest` leaves the
status at `streaming` (and copies no content), so the unconditional claim
that `latest` on a non-empty list sets the status to idle fails. -/
theorem latest_sets_idle_counterexample :
    stateNullLatest.documents = some [docNull] ∧
      [docNull] ≠ ([] : List Document) ∧
      (handleVersionChange .latest stateNullLatest).artifact.status =
        ArtifactStatus.streaming ∧
      ArtifactStatus.streaming ≠ ArtifactStatus.idle ∧
      (handleVersionChange .latest stateNullLatest).artifact.content =
        stateNullLatest.artifact.content :=
  ⟨rfl, by decide, rfl, by decide, rfl⟩

/-- **C3 (amended)**: `latest` on a non-empty fetched list whose last
snapshot has present, non-empty content sets the cursor to the last index,
the mode to edit, copies that content into the Artifact State and sets the
status to idle; on an empty fetched list it is a no-op that leaves the
cursor (indeed the whole state) unchanged and does not throw. -/
theorem latest_navigates_to_last (s : ArtifactPanelState) (l : List Document)
    (d : Document) (hd : s.documents = some l) :
    (l.getLast? = some d → strTruthy d.content = true →
      handleVersionChange .latest s =
        { s with currentVersionIndex := (l.length : Int) - 1, mode := .edit,
                 artifact := { s.artifact with
                   content := some (jsOrEmpty d.content),
                   status := .idle } }) ∧
    (l = [] → handleVersionChange .latest s = s) :=
  ⟨fun hlast ht => handleVersionChange_latest_truthy s l d hd hlast ht,
   fun hnil => by
     unfold handleVersionChange
     rw [hd]
     dsimp only
     rw [if_pos (by simp [hnil])]⟩

/-- Witness for the amended C3 at a concrete three-version state. -/
theorem latest_navigates_to_last_witness :
    ([docA, docB, docC].getLast? = some docC) ∧
      strTruthy docC.content = true ∧
      handleVersionChange .latest stateEx =
        { stateEx with currentVersionIndex := 2, mode := .edit,
                       artifact := { stateEx.artifact with
                         content := some "c", status := .idle } } :=
  ⟨rfl, rfl,
   (latest_navigates_to_last stateEx [docA, docB, docC] docC rfl).1 rfl rfl⟩

/-- **C6**: a `prev` or `next` navigation whose target snapshot has missing
(`null`) content is non-fatal: the cursor still advances to the new index
while the Artifact State (displayed content and status) is left unchanged. -/
theorem missing_content_nonfatal (s : ArtifactPanelState) (l : List Document)
    (d : Document) (hd : s.documents = some l) (hmiss : d.content = none) :
    (0 < s.currentVersionIndex →
      jsIndex l (s.currentVersionIndex - 1) = some d →
      handleVersionChange .prev s =
        { s with currentVersionIndex := s.currentVersionIndex - 1 }) ∧
    (s.currentVersionIndex < (l.length : Int) - 1 →
      jsIndex l (s.currentVersionIndex + 1) = some d →
      handleVersionChange .next s =
        { s with currentVersionIndex := s.currentVersionIndex + 1 }) :=
  have ht : strTruthy d.content = false := by rw [hmiss]; rfl
  ⟨fun hpos hj => handleVersionChange_prev_untruthy s l d hd hpos hj ht,
   fun hpos hj => handleVersionChange_next_untruthy s l d hd hpos hj ht⟩

/-- Witness for C6: `prev` onto a `null`-content snapshot. -/
theorem missing_content_nonfatal_witness :
    0 < stateNullPrev.currentVersionIndex ∧
      jsIndex [docNull, docB] 0 = some docNull ∧
      docNull.content = none ∧
      handleVersionChange .prev stateNullPrev =
        { stateNullPrev with currentVersionIndex := 0 } :=
  ⟨by decide, rfl, rfl,
   (missing_content_nonfatal stateNullPrev [docNull, docB] docNull rfl
     rfl).1 (by decide) rfl⟩

/-- **C8 counterexample**: before any fetch delivered (`documents` is still
`undefined`), `toggle` returns at the `if (!documents)` guard and the mode is
not flipped, so the unconditional claim that `toggle` flips the display mode
fails. -/
theorem toggle_flips_mode_counterexample :
    stateNoDocs.mode = DisplayMode.edit ∧
      handleVersionChange .toggle stateNoDocs = stateNoDocs ∧
      (handleVersionChange .toggle stateNoDocs).mode ≠ DisplayMode.diff :=
  ⟨rfl, rfl, by decide⟩

/-- **C8 (amended)**: once the document list has been fetched, `toggle`
flips the display mode between edit and diff and leaves the version cursor,
the Artifact State's content and the rest of the state unchanged; before any
fetch it leaves the whole state unchanged. -/
theorem toggle_flips_mode (s : ArtifactPanelState) (l : List Document) :
    (s.documents = some l →
      handleVersionChange .toggle s =
        { s with mode := if s.mode = DisplayMode.edit then .diff else .edit }) ∧
    (s.documents = none → handleVersionChange .toggle s = s) := by
  constructor
  · intro hd
    unfold handleVersionChange
    rw [hd]
  · intro hd
    unfold handleVersionChange
    rw [hd]

/-- Witness for the amended C8 at a concrete state in edit mode. -/
theorem toggle_flips_mode_witness :
    stateEx.documents = some [docA, docB, docC] ∧
      handleVersionChange .toggle stateEx =
        { stateEx with mode := DisplayMode.diff } :=
  ⟨rfl, (toggle_flips_mode stateEx [docA, docB, docC]).1 rfl⟩

/-- **C9**: a `prev`, `next` or `latest` navigation whose target snapshot's
content is the empty string behaves exactly as if the content were missing:
the JS truthiness guard rejects `""`, so the cursor is still updated (and
`latest` still sets the mode to edit) while the Artifact State's content and
status are left unchanged. -/
theorem empty_content_rejected_by_truthiness (s : ArtifactPanelState)
    (l : List Document) (d : Document) (hd : s.documents = some l)
    (hempty : d.content = some "") :
    (0 < s.currentVersionIndex →
      jsIndex l (s.currentVersionIndex - 1) = some d →
      handleVersionChange .prev s =
        { s with currentVersionIndex := s.currentVersionIndex - 1 }) ∧
    (s.currentVersionIndex < (l.length : Int) - 1 →
      jsIndex l (s.currentVersionIndex + 1) = some d →
      handleVersionChange .next s =
        { s with currentVersionIndex := s.currentVersionIndex + 1 }) ∧
    (l.getLast? = some d →
      handleVersionChange .latest s =
        { s with currentVersionIndex := (l.length : Int) - 1,
                 mode := .edit }) :=
  have ht : strTruthy d.content = false := by rw [hempty]; rfl
  ⟨fun hpos hj => handleVersionChange_prev_untruthy s l d hd hpos hj ht,
   fun hpos hj => handleVersionChange_next_untruthy s l d hd hpos hj ht,
   fun hlast => handleVersionChange_latest_untruthy s l d hd hlast ht⟩

/-- Witness for C9: `prev` onto an empty-string-content snapshot. -/
theorem empty_content_rejected_witness :
    0 < stateEmptyPrev.currentVersionIndex ∧
      jsIndex [docEmpty, docB] 0 = some docEmpty ∧
      docEmpty.content = some "" ∧
      handleVersionChange .prev stateEmptyPrev =
        { stateEmptyPrev with currentVersionIndex := 0 } :=
  ⟨by decide, rfl, rfl,
   (empty_content_rejected_by_truthiness stateEmptyPrev [docEmpty, docB]
     docEmpty rfl rfl).1 (by decide) rfl⟩

/-- **C5**: whenever the chat's request stream status is not `streaming`,
the reconciliation effect forces the artifact's status to `idle`; hence the
artifact never remains `streaming` once the chat stream has stopped. -/
theorem artifact_not_stuck_streaming (cs : ChatStatus) (a : UIArtifact)
    (h : cs ≠ ChatStatus.streaming) :
    (reconcileArtifactStatus cs a).status = ArtifactStatus.idle := by
  cases cs <;> cases ha : a.status <;>
    simp_all [reconcileArtifactStatus]

/-- Witness for C5 at the spec's example transition: chat status moves to
`ready` while the artifact was still `streaming`. -/
theorem artifact_not_stuck_streaming_witness :
    ChatStatus.ready ≠ ChatStatus.streaming ∧
      artifactEx.status = ArtifactStatus.streaming ∧
      (reconcileArtifactStatus ChatStatus.ready artifactEx).status =
        ArtifactStatus.idle :=
  ⟨by decide, rfl,
   artifact_not_stuck_streaming ChatStatus.ready artifactEx (by decide)⟩

/-- **C2**: an invocation of the persistence bridge with content equal to
the latest cached snapshot's content issues no network write (idempotent
skip); consequently, submitting the same changed content twice in sequence
— the second call running over the cache the first successful write
produced — results in exactly one network write. -/
theorem bridge_idempotent_skip (a : UIArtifact) (c : String) (net net2 : Net)
    (docs : List Document) (d : Document) :
    (docs.getLast? = some d → d.content = some c →
      bridgePosts (handleContentChange a c net (some docs)) = 0) ∧
    (a.documentId ≠ "" → a.documentId ≠ "init" →
      docs.getLast? = some d → d.content ≠ some c →
      net.postOk = true → net.refetchOk = true →
      (∃ d2, net.refetchDocs.getLast? = some d2 ∧ d2.content = some c) →
      ∀ o, handleContentChange a c net (some docs) = some o →
        o.posts + bridgePosts (handleContentChange a c net2 o.result) = 1) := by
  constructor
  · intro hlast hc
    by_cases hg : (a.documentId == "" || a.documentId == "init") = true
    · simp [handleContentChange, hg, bridgePosts]
    · rw [Bool.not_eq_true] at hg
      simp [handleContentChange, hg, bridgePosts, documentMutateUpdater,
        hlast, hc]
  · intro h1 h2 hlast hdiff hok hrok hre o ho
    obtain ⟨d2, hd2, hc2⟩ := hre
    have hg : (a.documentId == "" || a.documentId == "init") = false := by
      simp [h1, h2]
    have hbne : (d.content != some c) = true := by
      simpa [bne_iff_ne] using hdiff
    simp only [handleContentChange, hg, Bool.false_eq_true, if_false,
      documentMutateUpdater, hlast, hbne, hok, hrok, if_true,
      Bool.not_true, Option.some_inj] at ho
    subst ho
    have hbne2 : (d2.content != some c) = false := by simp [hc2]
    simp [handleContentChange, hg, bridgePosts, documentMutateUpdater,
      hd2, hbne2]

/-- Witness for C2: saving `"new"` over a cache whose latest content is
`"a"` writes once and refreshes the cache; re-submitting `"new"` over that
refreshed cache issues no further write; submitting content equal to the
cached latest issues no write at all. -/
theorem bridge_idempotent_skip_witness :
    bridgePosts (handleContentChange artifactEx "a" netOk (some [docA])) = 0 ∧
      (1 : Nat) + bridgePosts (handleContentChange artifactEx "new" netOk
        (some [docA, docNew])) = 1 :=
  ⟨(bridge_idempotent_skip artifactEx "a" netOk netOk [docA] docA).1 rfl rfl,
   (bridge_idempotent_skip artifactEx "new" netOk netOk [docA] docA).2
     (by decide) (by decide) rfl (by decide) rfl rfl
     ⟨docNew, rfl, rfl⟩
     { result := some [docA, docNew], posts := 1, dirtyCleared := true } rfl⟩

/-- **C4**: a persistence-bridge write whose update request fails (non-ok
response) leaves the cached document list unchanged (the updater returns
the prior list), does not clear the dirty flag, and issues exactly one
request — no retry. -/
theorem write_failure_leaves_cache (c : String) (net : Net)
    (docs : List Document) (d : Document)
    (hlast : docs.getLast? = some d) (hdiff : d.content ≠ some c)
    (hfail : net.postOk = false) :
    documentMutateUpdater c net (some docs) =
      { result := some docs, posts := 1, dirtyCleared := false } := by
  have hbne : (d.content != some c) = true := by
    simpa [bne_iff_ne] using hdiff
  simp [documentMutateUpdater, hlast, hbne, hfail]

/-- Witness for C4: a failing `POST` over a one-snapshot cache. -/
theorem write_failure_leaves_cache_witness :
    ([docA].getLast? = some docA) ∧ docA.content ≠ some "x" ∧
      netFail.postOk = false ∧
      documentMutateUpdater "x" netFail (some [docA]) =
        { result := some [docA], posts := 1, dirtyCleared := false } :=
  ⟨rfl, by decide, rfl,
   write_failure_leaves_cache "x" netFail [docA] docA rfl (by decide) rfl⟩

/-- **C7**: while the active artifact's `documentId` is the sentinel
`'init'`, the persistence bridge is a no-op: `mutate` is never invoked (so
the cache is untouched), no network request is issued, and the edit is
dropped rather than queued. -/
theorem init_sentinel_bridge_noop (a : UIArtifact) (c : String) (net : Net)
    (cache : Option (List Document)) (h : a.documentId = "init") :
    handleContentChange a c net cache = none ∧
      bridgePosts (handleContentChange a c net cache) = 0 := by
  have hg : (a.documentId == "" || a.documentId == "init") = true := by
    simp [h]
  simp [handleContentChange, hg, bridgePosts]

/-- Witness for C7 at the sentinel artifact. -/
theorem init_sentinel_bridge_noop_witness :
    artifactInit.documentId = "init" ∧
      handleContentChange artifactInit "x" netOk (some [docA]) = none :=
  ⟨rfl, (init_sentinel_bridge_noop artifactInit "x" netOk (some [docA]) rfl).1⟩

/-- **C10**: `getDocumentContentById` is total over all integer indices: it
returns `""` when the list is absent, when the index is out of bounds
(including negative indices), and when the snapshot at the index has `null`
content; when the snapshot exists with non-null content it returns exactly
that string — it never throws and never returns null. -/
theorem getDocumentContentById_total (i : Int) (docs : List Document)
    (d : Document) :
    getDocumentContentById none i = "" ∧
    ((i < 0 ∨ (docs.length : Int) ≤ i) →
      getDocumentContentById (some docs) i = "") ∧
    (jsIndex docs i = some d → d.content = none →
      getDocumentContentById (some docs) i = "") ∧
    (∀ c, jsIndex docs i = some d → d.content = some c →
      getDocumentContentById (some docs) i = c) := by
  refine ⟨rfl, ?_, ?_, ?_⟩
  · intro h
    have hj : jsIndex docs i = none := by
      rcases h with h | h
      · simp [jsIndex, not_le.mpr h]
      · have h0 : (0 : Int) ≤ i := by omega
        have hlen : docs.length ≤ i.toNat := by omega
        rw [jsIndex, if_pos h0, List.getElem?_eq_none hlen]
    simp [getDocumentContentById, hj]
  · intro hj hc
    simp [getDocumentContentById, hj, hc]
  · intro c hj hc
    simp [getDocumentContentById, hj, hc]

/-- Witness for C10: absent list, negative index, and `null` content all
yield the empty string. -/
theorem getDocumentContentById_total_witness :
    getDocumentContentById none 7 = "" ∧
      (jsIndex [docNull] 0 = some docNull) ∧ docNull.content = none ∧
      getDocumentContentById (some [docNull]) 0 = "" ∧
      getDocumentContentById (some [docNull]) (-1) = "" :=
  ⟨(getDocumentContentById_total 7 [docNull] docNull).1, rfl, rfl,
   (getDocumentContentById_total 0 [docNull] docNull).2.2.1 rfl rfl,
   (getDocumentContentById_total (-1) [docNull] docNull).2.1
     (Or.inl (by decide))⟩
